import Mathlib

/-!
# Flathunter core: shallow embedding and verification

This file embeds the expose deduplication / caching / reference-price
enrichment core of the flathunter repository
(`idmaintainer.py`, `crawl_ebaykleinanzeigen.py`, `crawl_immowelt.py`,
`crawl_reference_sqm_price.py`, `gsheets_connector.py`) and settles the
specification claims against it.

Modelling conventions:
* Python floats are modelled as rationals (`ℚ`); Python `-1.0 == -1` holds,
  and so does the corresponding `ℚ` equality.
* SQLite tables are modelled as lists of rows in insertion (rowid) order.
  The `processed` table (`CREATE TABLE processed (ID INTEGER)`, no
  uniqueness constraint) is a `List ℤ`; the `exposes` table
  (`PRIMARY KEY (id, crawler)`) is a `List ExposeRow` on which
  `INSERT OR REPLACE` removes any row with the same key and appends the
  new one.
* Python exceptions are modelled with `Except PyError`; an uncaught
  exception in a loop aborts the whole computation, exactly as in Python.
* The selenium-driven reference-price lookup is external nondeterminism:
  `crawl_ref_sqm_price` is parameterised by the outcome of the browser
  session (`ResolverResult`), and its return values on each branch are
  taken verbatim from the source (`-1.0, "N/A"` on every failure path).
-/

/-- Python exception classes that appear in the modelled code paths. -/
inductive PyError where
  /-- Python TypeError, e.g. from subscripting `None` (`row[1:]` with `row is None`). -/
  | typeError
  /-- Python ValueError, e.g. from `float()` on a non-numeric string. -/
  | valueError
  /-- Python ZeroDivisionError from dividing by a zero float. -/
  | zeroDivisionError
  /-- A dedicated "no such row" error. The spec postulates it; it lets us ask
      whether the code actually raises it. -/
  | notFound
  /-- Python `gspread.exceptions.APIError`, the sink's rate-limit rejection. -/
  | apiError
deriving Repr, DecidableEq

instance instDecEqExcept {ε α : Type} [DecidableEq ε] [DecidableEq α] :
    DecidableEq (Except ε α) := fun a b =>
  match a, b with
  | .ok x, .ok y =>
    if h : x = y then isTrue (by rw [h])
    else isFalse (fun hh => h (Except.ok.inj hh))
  | .error x, .error y =>
    if h : x = y then isTrue (by rw [h])
    else isFalse (fun hh => h (Except.error.inj hh))
  | .ok _, .error _ => isFalse (fun hh => Except.noConfusion hh)
  | .error _, .ok _ => isFalse (fun hh => Except.noConfusion hh)

/-- Python `round` to an integer: round-half-to-even (banker's rounding). -/
def roundHalfEven (q : ℚ) : ℤ :=
  if q - ⌊q⌋ < 1/2 then ⌊q⌋
  else if 1/2 < q - ⌊q⌋ then ⌊q⌋ + 1
  else if ⌊q⌋ % 2 = 0 then ⌊q⌋ else ⌊q⌋ + 1

/-- Python `round(x, 3)`: round to 3 decimal places, half to even. -/
def pyRound3 (q : ℚ) : ℚ := (roundHalfEven (q * 1000) : ℚ) / 1000

/-- The dict a crawler hands to `IdMaintainer.save_expose` (the columns the
row stores; `price`/`size`/`rooms` raw strings are only carried in the JSON
blob and are irrelevant to every claim). -/
structure Expose where
  id : ℤ
  crawler : String
  title : String
  url : String
  image : String
  price_float : ℚ
  size_float : ℚ
  address : String
  sqm_price : ℚ
  sqm_price_ref_address : ℚ
  ref_address : String
  sqm_price_times_ref_sqm_price : ℚ
deriving Repr, DecidableEq

/-- One row of the `exposes` table, columns in schema order. -/
structure ExposeRow where
  id : ℤ
  created : ℕ
  crawler : String
  title : String
  url : String
  image : String
  price_float : ℚ
  size_float : ℚ
  address : String
  sqm_price : ℚ
  sqm_price_ref_address : ℚ
  ref_address : String
  sqm_price_times_ref_sqm_price : ℚ
  /-- the `details BLOB`, `json.dumps(expose)` -/
  details : Expose
deriving Repr, DecidableEq

/-- The SQLite database `processed_ids.db`: the two tables the claims
touch (`executions` and `users` are never involved). -/
structure DB where
  processed : List ℤ
  exposes : List ExposeRow
deriving Repr, DecidableEq

def dbEmpty : DB := ⟨[], []⟩

/-- Model of `IdMaintainer.is_processed`: `SELECT id FROM processed WHERE id = ?`,
`fetchone() is not None`. -/
def is_processed (db : DB) (expose_id : ℤ) : Bool :=
  db.processed.contains expose_id

/-- Model of `IdMaintainer.mark_processed`: `INSERT INTO processed VALUES(?)`.
The table has no primary key or uniqueness constraint, so the insert
appends a row unconditionally. -/
def mark_processed (db : DB) (expose_id : ℤ) : DB :=
  { db with processed := db.processed ++ [expose_id] }

/-- Model of `CrawlEbayKleinanzeigen.is_processed`: the same query against the same
shared `processed` table, issued from the eBay crawler. -/
def ebay_is_processed (db : DB) (expose_id : ℤ) : Bool :=
  db.processed.contains expose_id

/-- Model of `CrawlImmowelt.is_processed`: the same query issued from the Immowelt
crawler. -/
def immowelt_is_processed (db : DB) (expose_id : ℤ) : Bool :=
  db.processed.contains expose_id

/-- Model of `AlreadySeenFilter.is_interesting`: the dedup gate. Returns the boolean
verdict together with the database state after the call. -/
def is_interesting (db : DB) (expose_id : ℤ) : Bool × DB :=
  if is_processed db expose_id then (false, db)
  else (true, mark_processed db expose_id)

/-- Does a row match the `exposes` primary key `(id, crawler)`? -/
def keyMatch (i : ℤ) (c : String) (r : ExposeRow) : Bool :=
  r.id == i && r.crawler == c

/-- Build the row `save_expose` inserts: every column from the expose dict,
`created` from the time of the call. -/
def rowOf (now : ℕ) (e : Expose) : ExposeRow :=
  ⟨e.id, now, e.crawler, e.title, e.url, e.image, e.price_float, e.size_float,
   e.address, e.sqm_price, e.sqm_price_ref_address, e.ref_address,
   e.sqm_price_times_ref_sqm_price, e⟩

/-- The `INSERT OR REPLACE INTO exposes` statement: SQLite deletes any row
with the same primary key `(id, crawler)` and inserts the new row. -/
def upsertExpose (db : DB) (now : ℕ) (e : Expose) : DB :=
  { db with
    exposes := db.exposes.filter (fun r => !(keyMatch e.id e.crawler r))
               ++ [rowOf now e] }

/-- Model of `CrawlEbayKleinanzeigen.qry_refs` and `CrawlImmowelt.qry_refs` (identical):
`SELECT id, ref_address, sqm_price_ref_address, sqm_price_times_ref_sqm_price
FROM exposes WHERE id = ?`, `row = cur.fetchone()`, `return row[1:]`.
When no row matches, `fetchone()` returns `None` and `None[1:]` raises
`TypeError`. -/
def qry_refs (db : DB) (expose_id : ℤ) :
    Except PyError (String × ℚ × ℚ) :=
  match db.exposes.find? (fun r => r.id == expose_id) with
  | some r => .ok (r.ref_address, r.sqm_price_ref_address,
                   r.sqm_price_times_ref_sqm_price)
  | none => .error .typeError

/-- Outcome of the selenium session inside `crawl_ref_sqm_price`: either the
price panel parsed to an integer price with a resolved address text, or any
one of the failure paths (missing element, click interception, timeout,
parse failure). -/
inductive ResolverResult where
  | success (pricePerArea : ℤ) (resolvedAddress : String)
  | failure
deriving Repr, DecidableEq

/-- Model of `crawl_ref_sqm_price(address)`, observable behaviour: on success returns
`(sqm_price, reference_address)` from the page; on every failure path the
source sets `sqm_price, reference_address = -1.0, "N/A"` and returns that. -/
def crawl_ref_sqm_price (outcome : ResolverResult) : ℚ × String :=
  match outcome with
  | .success p a => ((p : ℚ), a)
  | .failure => (-1, "N/A")

/-- Result of the per-listing reference-enrichment block, together with the
number of `crawl_ref_sqm_price` invocations it performed (the "call count on
a test double" the spec's properties talk about). -/
structure EnrichResult where
  ref_address : String
  sqm_price_ref_address : ℚ
  sqm_price_times_ref_sqm_price : ℚ
  resolverCalls : ℕ
deriving Repr, DecidableEq

/-- The reference-enrichment block shared verbatim by
`CrawlEbayKleinanzeigen.extract_data` and `CrawlImmowelt.extract_data`:

```
if self.is_processed(id):
    (ref_address, sqm_price_ref_address, sqm_price_times_ref_sqm_price) = self.qry_refs(id)
else:
    sqm_price_ref_address, ref_address = crawl_ref_sqm_price(address) if address != "" else (-1, "")
    if (sqm_price_ref_address, ref_address) == (-1, ""):
        sqm_price_times_ref_sqm_price = -1.0
    else:
        sqm_price_times_ref_sqm_price = round(sqm_price / sqm_price_ref_address, 3)
```

A zero reference price would make the division raise `ZeroDivisionError`. -/
def enrichReference (db : DB) (expose_id : ℤ) (address : String) (sqm_price : ℚ)
    (outcome : ResolverResult) : Except PyError EnrichResult :=
  if is_processed db expose_id then
    match qry_refs db expose_id with
    | .ok (ra, spr, ratio) => .ok ⟨ra, spr, ratio, 0⟩
    | .error e => .error e
  else
    let (res, calls) :=
      if address ≠ "" then (crawl_ref_sqm_price outcome, 1)
      else (((-1 : ℚ), ""), 0)
    if (res.1, res.2) = ((-1 : ℚ), "") then
      .ok ⟨res.2, res.1, -1, calls⟩
    else if res.1 = 0 then .error .zeroDivisionError
    else .ok ⟨res.2, res.1, pyRound3 (sqm_price / res.1), calls⟩

/-- Outcome of one `append_to_google_sheet` attempt: either the row is
appended, or gspread raises `APIError` (rate limit). -/
inductive SinkOutcome where
  | ok
  | rateLimited
deriving Repr, DecidableEq

/-- What a completed `save_expose` call produced: the new database state,
how many calls to `append_to_google_sheet` were made, and how many time
units were spent in `time.sleep` backoff. -/
structure SaveOutcome where
  db : DB
  sinkCalls : ℕ
  backoffWaited : ℕ
deriving Repr, DecidableEq

/-- Model of `IdMaintainer.save_expose`, parameterised by the sink's response to the
first and (if reached) second `append_to_google_sheet` attempt:

```
if not self.is_processed(int(expose['id'])):
    try:
        append_to_google_sheet(append_to_g)
    except gspread.exceptions.APIError:
        time.sleep(60)
        append_to_google_sheet(append_to_g)   # uncaught on failure
cur.execute('INSERT OR REPLACE INTO exposes(...) VALUES (...)', (..., now, ...))
```

An `APIError` from the retry is uncaught, so it propagates out of
`save_expose` before the `INSERT OR REPLACE` runs: the error case carries no
database update. -/
def save_expose (db : DB) (now : ℕ) (e : Expose)
    (first second : SinkOutcome) : Except PyError SaveOutcome :=
  if is_processed db e.id then
    .ok ⟨upsertExpose db now e, 0, 0⟩
  else
    match first with
    | .ok => .ok ⟨upsertExpose db now e, 1, 0⟩
    | .rateLimited =>
      match second with
      | .ok => .ok ⟨upsertExpose db now e, 2, 60⟩
      | .rateLimited => .error .apiError

/-- Insertion step for sorting rows by `created` descending. -/
def insertByCreated (r : ExposeRow) : List ExposeRow → List ExposeRow
  | [] => [r]
  | x :: xs =>
    if x.created ≤ r.created then r :: x :: xs
    else x :: insertByCreated r xs

/-- The `ORDER BY created DESC` sort. -/
def sortByCreatedDesc : List ExposeRow → List ExposeRow
  | [] => []
  | x :: xs => insertByCreated x (sortByCreatedDesc xs)

/-- Model of `IdMaintainer.get_exposes_since`: `SELECT created, crawler, details FROM
exposes WHERE created >= ? ORDER BY created DESC` (modelled at row level;
the Python wrapper re-parses the JSON blob). -/
def get_exposes_since (db : DB) (min_datetime : ℕ) : List ExposeRow :=
  sortByCreatedDesc (db.exposes.filter (fun r => min_datetime ≤ r.created))

/-- Model of `IdMaintainer.get_recent_exposes`: scan `SELECT details FROM exposes
ORDER BY created DESC` taking rows passing the filter until `count` are
found. (`cursor.arraysize` is 1, so the batch-wise `pop()` walks the cursor
in order.) -/
def get_recent_exposes (db : DB) (count : ℕ) (keep : ExposeRow → Bool) :
    List ExposeRow :=
  ((sortByCreatedDesc db.exposes).filter keep).take count

/-! ## Numeric normalization in the extraction loops -/

/-- Outcome of reading the eBay size tag `tags[0]` for one listing:
the element is missing (`tags[0]` raises `IndexError`, or a failed regex
leaves `None` and raises `TypeError`), or it is text whose
`float(re.sub(" m²", "", size).strip().replace(",", "."))` either parses to
a rational or raises `ValueError`. -/
inductive SizeTagOutcome where
  | missing
  | text (parsed : Option ℚ)
deriving Repr, DecidableEq

/-- The eBay size/price-per-area block for one listing:

```
try:
    size = tags[0].text
    size_float = float(re.sub(" m²", "", size).strip().replace(",", "."))
    sqm_price = round(price_float / size_float)
except (IndexError, TypeError):
    size = ""
    size_float = -1
    sqm_price = -1
```

Only `IndexError` and `TypeError` are caught; a `ValueError` from `float()`
and a `ZeroDivisionError` from a zero size propagate. Returns
`(size_float, sqm_price)`. -/
def ebay_size_sqm (price_float : ℚ) : SizeTagOutcome → Except PyError (ℚ × ℚ)
  | .missing => .ok (-1, -1)
  | .text none => .error .valueError
  | .text (some s) =>
    if s = 0 then .error .zeroDivisionError
    else .ok (s, (roundHalfEven (price_float / s) : ℚ))

/-- One Immowelt listing card, by the parse outcome of its numeric texts.
`none` covers both a malformed text and the missing-element branch (the
`except IndexError` handler sets the text to `""`, and `float("")` raises
`ValueError`). -/
structure ImmoweltCard where
  priceParsed : Option ℚ
  sizeParsed : Option ℚ
deriving Repr, DecidableEq

/-- The Immowelt numeric block for one listing, which has no error handling
at all:

```
price_float = float(re.sub("[. €]", "", price).strip())
size_float = float(re.sub(" m²", "", size).strip())
sqm_price = round(price_float / size_float)
```

Returns `(price_float, size_float, sqm_price)`. -/
def immowelt_numeric (c : ImmoweltCard) : Except PyError (ℚ × ℚ × ℚ) :=
  match c.priceParsed with
  | none => .error .valueError
  | some p =>
    match c.sizeParsed with
    | none => .error .valueError
    | some s =>
      if s = 0 then .error .zeroDivisionError
      else .ok (p, s, (roundHalfEven (p / s) : ℚ))

/-- The Immowelt extraction loop over the page's cards: an exception from
any listing's numeric block is uncaught inside `extract_data`, so it aborts
the whole loop and loses every other listing's entry. -/
def immowelt_extract_numeric (cards : List ImmoweltCard) :
    Except PyError (List (ℚ × ℚ × ℚ)) :=
  cards.mapM immowelt_numeric

example : crawl_ref_sqm_price .failure = (-1, "N/A") := rfl
example : is_interesting dbEmpty 5 = (true, ⟨[5], []⟩) := rfl
example : qry_refs dbEmpty 3 = .error .typeError := rfl

/-! ## Helper lemmas about the store model -/

/-- Number of rows of the `exposes` table carrying the primary key
`(i, c)`. -/
def countKey (db : DB) (i : ℤ) (c : String) : ℕ :=
  (db.exposes.filter (keyMatch i c)).length

theorem mem_insertByCreated (r a : ExposeRow) (l : List ExposeRow) :
    a ∈ insertByCreated r l ↔ a = r ∨ a ∈ l := by
  induction l with
  | nil => simp [insertByCreated]
  | cons x xs ih =>
    simp only [insertByCreated]
    split
    · simp [List.mem_cons]
    · simp only [List.mem_cons, ih]
      tauto

theorem mem_sortByCreatedDesc (a : ExposeRow) (l : List ExposeRow) :
    a ∈ sortByCreatedDesc l ↔ a ∈ l := by
  induction l with
  | nil => simp [sortByCreatedDesc]
  | cons x xs ih =>
    simp [sortByCreatedDesc, mem_insertByCreated, ih]

theorem find?_filter_not_append (p : ExposeRow → Bool) (l : List ExposeRow)
    (x : ExposeRow) (hx : p x = true) :
    ((l.filter fun r => !(p r)) ++ [x]).find? p = some x := by
  induction l with
  | nil => simp [List.find?, hx]
  | cons y ys ih =>
    rcases Bool.eq_false_or_eq_true (p y) with hy | hy
    · simp [List.filter_cons, List.find?_cons, hy, ih]
    · simp [List.filter_cons, hy, ih]

theorem filter_filter_not_append (p : ExposeRow → Bool) (l : List ExposeRow)
    (x : ExposeRow) (hx : p x = true) :
    ((l.filter fun r => !(p r)) ++ [x]).filter p = [x] := by
  induction l with
  | nil => simp [List.filter, hx]
  | cons y ys ih =>
    rcases Bool.eq_false_or_eq_true (p y) with hy | hy
    · simp [List.filter_cons, hy, ih]
    · simp [List.filter_cons, hy, ih]

/-- The row `keyMatch` test accepts the row `save_expose` builds for the
matching expose. -/
theorem keyMatch_rowOf (t : ℕ) (e : Expose) :
    keyMatch e.id e.crawler (rowOf t e) = true := by
  simp [keyMatch, rowOf]

/-- After an `INSERT OR REPLACE`, exactly one row carries the key. -/
theorem countKey_upsert (db : DB) (t : ℕ) (e : Expose) :
    countKey (upsertExpose db t e) e.id e.crawler = 1 := by
  simp only [countKey, upsertExpose]
  rw [filter_filter_not_append _ _ _ (keyMatch_rowOf t e)]
  rfl

/-- The unique row carrying the key after an `INSERT OR REPLACE` is the
row just written. -/
theorem find?_upsert (db : DB) (t : ℕ) (e : Expose) :
    (upsertExpose db t e).exposes.find? (keyMatch e.id e.crawler)
      = some (rowOf t e) := by
  simp only [upsertExpose]
  exact find?_filter_not_append _ _ _ (keyMatch_rowOf t e)

/-- An `INSERT OR REPLACE` on `exposes` does not touch the `processed`
table. -/
theorem is_processed_upsert (db : DB) (t : ℕ) (e : Expose) (i : ℤ) :
    is_processed (upsertExpose db t e) i = is_processed db i := rfl

/-- Appending an element already present in a list does not change the
result of `contains` for any element. -/
theorem contains_append_mem (l : List ℤ) (i j : ℤ) (hi : i ∈ l) :
    (l ++ [i]).contains j = l.contains j := by
  have h1 : (l ++ [i]).contains j = true ↔ l.contains j = true := by
    simp only [List.contains, List.elem_iff, List.mem_append,
               List.mem_singleton]
    constructor
    · rintro (hm | rfl)
      · exact hm
      · exact hi
    · exact Or.inl
  rcases Bool.eq_false_or_eq_true (l.contains j) with hj | hj <;>
    rw [hj] at h1 ⊢
  · exact h1.mpr rfl
  · cases hc : (l ++ [i]).contains j
    · rfl
    · exact absurd (h1.mp hc) Bool.false_ne_true

/-- Inserting into `processed` makes the inserted id processed. -/
theorem is_processed_mark (db : DB) (i : ℤ) :
    is_processed (mark_processed db i) i = true := by
  simp [is_processed, mark_processed]

/-- Any number of further upserts with the same key keeps the row count at
one. -/
theorem countKey_foldl_upsert (i : ℤ) (c : String) (us : List (ℕ × Expose))
    (db : DB) (hus : ∀ p ∈ us, p.2.id = i ∧ p.2.crawler = c)
    (h : countKey db i c = 1) :
    countKey (us.foldl (fun d p => upsertExpose d p.1 p.2) db) i c = 1 := by
  induction us generalizing db with
  | nil => simpa using h
  | cons u tl ih =>
    simp only [List.foldl_cons]
    apply ih _ (fun p hp => hus p (List.mem_cons_of_mem u hp))
    obtain ⟨h1, h2⟩ := hus u (List.mem_cons_self u tl)
    have := countKey_upsert db u.1 u.2
    rwa [h1, h2] at this

/-- Sample expose used by concrete witnesses and counterexamples. -/
def eSample : Expose :=
  ⟨1, "CrawlImmowelt", "Schoene Wohnung", "https://example.org/1", "img",
   1000, 50, "Hermannstr. 224", 20, 16, "Hermannstrasse, Berlin", 5/4⟩

/-- Sample stored row whose reference fields are the resolver-failure
values the code actually persists. -/
def rowSentinel : ExposeRow := rowOf 7 { eSample with
  id := 9, sqm_price_ref_address := -1, ref_address := "N/A",
  sqm_price_times_ref_sqm_price := -20 }

/-! ## Claims -/

/-- Claim C1: the claim says that on resolver failure enrichment stores
`referencePricePerArea = -1`, `referenceAddress = ""` and price ratio
`-1.0`. The code is wrong: `crawl_ref_sqm_price` signals failure with
`(-1.0, "N/A")`, which fails the `== (-1, "")` sentinel test in
`extract_data`, so the else-branch stores `ref_address = "N/A"` and
ratio `round(sqm_price / -1.0, 3) = -sqm_price` (here `-2905`), not
`-1.0`. This theorem evaluates the embedded code at the failing input. -/
theorem c1_resolver_failure_eval :
    enrichReference dbEmpty 11 "Hermannstr. 224" 2905 .failure
      = .ok ⟨"N/A", -1, -2905, 1⟩ := by
  simp [enrichReference, is_processed, dbEmpty, crawl_ref_sqm_price]
  norm_num [pyRound3, roundHalfEven]

/-- Claim C2, counterexample: with both sink attempts rate-limited,
`save_expose` propagates the `APIError` raised by the (uncaught) retry
before ever reaching the `INSERT OR REPLACE`, so there is no resulting
store state at all — contradicting the claim that the expose row is
nevertheless persisted. -/
theorem c2_counterexample :
    save_expose dbEmpty 0 eSample .rateLimited .rateLimited
        = .error .apiError ∧
    ∀ out : SaveOutcome,
      save_expose dbEmpty 0 eSample .rateLimited .rateLimited
        ≠ .ok out := by
  constructor
  · simp [save_expose, is_processed, dbEmpty, eSample]
  · intro out
    simp [save_expose, is_processed, dbEmpty, eSample]

/-- Claim C2 as amended: on a rate-limit rejection, `save_expose` sleeps a
fixed 60 time units and retries exactly once (a successful retry appends
the row after 2 sink calls and 60 units of backoff, and persists the
expose); but when the retry also fails, the `APIError` propagates out of
`save_expose` before the `INSERT OR REPLACE` statement runs, so the expose
row is NOT persisted by that call (the processed-set entry written earlier
by the dedup gate is untouched, since `save_expose` never writes the
`processed` table). -/
theorem c2_retry_once_row_not_persisted (db : DB) (e : Expose) (t : ℕ)
    (h : is_processed db e.id = false) :
    save_expose db t e .rateLimited .ok
        = .ok ⟨upsertExpose db t e, 2, 60⟩ ∧
    save_expose db t e .rateLimited .rateLimited = .error .apiError := by
  constructor <;> simp [save_expose, h]

/-- Witness for `c2_retry_once_row_not_persisted` at a concrete input. -/
theorem c2_witness :
    is_processed dbEmpty eSample.id = false ∧
    (save_expose dbEmpty 3 eSample .rateLimited .ok
        = .ok ⟨upsertExpose dbEmpty 3 eSample, 2, 60⟩ ∧
     save_expose dbEmpty 3 eSample .rateLimited .rateLimited
        = .error .apiError) :=
  ⟨rfl, c2_retry_once_row_not_persisted dbEmpty eSample 3 rfl⟩

/-- Claim C3: for an identifier already processed whose expose row is on
record, the enrichment block returns exactly the stored reference fields
(address, reference price-per-area, ratio) and performs zero calls to the
reference-price resolver — even when the stored values are a failure
sentinel, since no constraint is placed on the stored row. -/
theorem c3_cache_reuse (db : DB) (i : ℤ) (addr : String) (sqm : ℚ)
    (o : ResolverResult) (r : ExposeRow)
    (h1 : is_processed db i = true)
    (h2 : db.exposes.find? (fun row => row.id == i) = some r) :
    enrichReference db i addr sqm o
      = .ok ⟨r.ref_address, r.sqm_price_ref_address,
             r.sqm_price_times_ref_sqm_price, 0⟩ := by
  simp [enrichReference, qry_refs, h1, h2]

/-- Witness for `c3_cache_reuse`: a stored failure-sentinel row is
returned verbatim with zero resolver calls. -/
theorem c3_witness :
    is_processed ⟨[9], [rowSentinel]⟩ 9 = true ∧
    (⟨[9], [rowSentinel]⟩ : DB).exposes.find? (fun row => row.id == 9)
      = some rowSentinel ∧
    enrichReference ⟨[9], [rowSentinel]⟩ 9 "Hermannstr. 224" 20 .failure
      = .ok ⟨rowSentinel.ref_address, rowSentinel.sqm_price_ref_address,
             rowSentinel.sqm_price_times_ref_sqm_price, 0⟩ :=
  ⟨rfl, rfl,
   c3_cache_reuse ⟨[9], [rowSentinel]⟩ 9 "Hermannstr. 224" 20 .failure
     rowSentinel rfl rfl⟩

/-- Claim C4, counterexample: `mark_processed` on an identifier already in
the `processed` table appends a second physical row (`INSERT INTO
processed VALUES(?)` with no uniqueness constraint), so the table state
after the second call differs from the state after the first — the claim
that no duplicate entry is created is false. -/
theorem c4_counterexample :
    (mark_processed (mark_processed dbEmpty 5) 5).processed
      ≠ (mark_processed dbEmpty 5).processed := by
  simp [mark_processed, dbEmpty]

/-- Claim C4 as amended: calling `mark_processed` on an already-present
identifier does not error (the operation is total) and leaves
`is_processed` unchanged for every identifier, but it appends a duplicate
physical row, growing the `processed` table by one. -/
theorem c4_mark_processed_membership (db : DB) (i : ℤ)
    (h : is_processed db i = true) :
    (∀ j : ℤ, is_processed (mark_processed db i) j = is_processed db j) ∧
    (mark_processed db i).processed.length = db.processed.length + 1 := by
  constructor
  · intro j
    have hmem : i ∈ db.processed := by
      simpa only [is_processed, List.contains, List.elem_iff] using h
    simp only [is_processed, mark_processed]
    exact contains_append_mem db.processed i j hmem
  · simp [mark_processed]

/-- Witness for `c4_mark_processed_membership` at a concrete input. -/
theorem c4_witness :
    is_processed ⟨[5], []⟩ 5 = true ∧
    ((∀ j : ℤ, is_processed (mark_processed ⟨[5], []⟩ 5) j
        = is_processed ⟨[5], []⟩ j) ∧
     (mark_processed (⟨[5], []⟩ : DB) 5).processed.length
        = (⟨[5], []⟩ : DB).processed.length + 1) :=
  ⟨rfl, c4_mark_processed_membership ⟨[5], []⟩ 5 rfl⟩
example : enrichReference dbEmpty 11 "Hermannstr. 224" 2905 .failure
    = .ok ⟨"N/A", -1, -2905, 1⟩ := by
  simp [enrichReference, is_processed, dbEmpty, crawl_ref_sqm_price]
  norm_num [pyRound3, roundHalfEven]
example : enrichReference dbEmpty 11 "" 2905 .failure
    = .ok ⟨"", -1, -1, 0⟩ := rfl
example : enrichReference dbEmpty 11 "X" 20 (.success 16 "Y")
    = .ok ⟨"Y", 16, 5/4, 1⟩ := by
  simp [enrichReference, is_processed, dbEmpty, crawl_ref_sqm_price]
  norm_num [pyRound3, roundHalfEven]

/-- Claim C5: starting from a state where the identifier is unprocessed,
the dedup gate (`AlreadySeenFilter.is_interesting`) admits the listing the
first time and rejects it the second time, and after the initial
`INSERT OR REPLACE` the `exposes` table holds exactly one row for the
primary key `(id, crawler)` no matter how many subsequent upserts with the
same key (and arbitrary other fields and timestamps) are performed. -/
theorem c5_admit_twice_unique_row (db : DB) (i : ℤ)
    (h : is_processed db i = false) (e : Expose) (he : e.id = i) (t0 : ℕ)
    (updates : List (ℕ × Expose))
    (hu : ∀ p ∈ updates, p.2.id = i ∧ p.2.crawler = e.crawler) :
    (is_interesting db i).1 = true ∧
    (is_interesting (is_interesting db i).2 i).1 = false ∧
    countKey (updates.foldl (fun d p => upsertExpose d p.1 p.2)
        (upsertExpose (is_interesting (is_interesting db i).2 i).2 t0 e))
      i e.crawler = 1 := by
  have h1 : is_interesting db i = (true, mark_processed db i) := by
    simp [is_interesting, h]
  have h2 : is_interesting (mark_processed db i) i
      = (false, mark_processed db i) := by
    simp [is_interesting, is_processed_mark]
  refine ⟨by rw [h1], by rw [h1, h2], ?_⟩
  rw [h1, h2]
  apply countKey_foldl_upsert i e.crawler updates _ hu
  have := countKey_upsert (mark_processed db i) t0 e
  rwa [he] at this

/-- Witness for `c5_admit_twice_unique_row` at a concrete input: one
admission, one rejection, one row after an update to non-reference
fields. -/
theorem c5_witness :
    is_processed dbEmpty 1 = false ∧
    ((is_interesting dbEmpty 1).1 = true ∧
     (is_interesting (is_interesting dbEmpty 1).2 1).1 = false ∧
     countKey ([((4 : ℕ), { eSample with price_float := 900 })].foldl
         (fun d p => upsertExpose d p.1 p.2)
         (upsertExpose (is_interesting (is_interesting dbEmpty 1).2 1).2 2
           eSample))
       1 eSample.crawler = 1) :=
  ⟨rfl, c5_admit_twice_unique_row dbEmpty 1 rfl eSample rfl 2
    [((4 : ℕ), { eSample with price_float := 900 })]
    (by intro p hp; rw [List.mem_singleton] at hp; subst hp
        exact ⟨rfl, rfl⟩)⟩

/-- Claim C6, counterexample: the claim says marking `(id, s1)` processed
must not make `isProcessed(id, s2)` true for a distinct source `s2`. But
the `processed` table is keyed by the bare integer id (`CREATE TABLE
processed (ID INTEGER)`, no source column), so after the eBay pipeline
marks id 7 processed, the Immowelt crawler's `is_processed` query also
reports 7 as processed. -/
theorem c6_counterexample :
    ebay_is_processed dbEmpty 7 = false ∧
    immowelt_is_processed dbEmpty 7 = false ∧
    immowelt_is_processed (mark_processed dbEmpty 7) 7 = true := by
  refine ⟨rfl, rfl, ?_⟩
  simp [immowelt_is_processed, mark_processed, dbEmpty]

/-- Claim C6 as amended: the processed-identifier set is global, keyed by
the identifier alone. Marking an id processed makes every source's
`is_processed` query (they all run the same SQL against the shared
`processed` table) return true for that id; only the `exposes` table's
primary key `(id, crawler)` is source-scoped. -/
theorem c6_processed_set_is_global (db : DB) (i : ℤ) :
    ebay_is_processed (mark_processed db i) i = true ∧
    immowelt_is_processed (mark_processed db i) i = true ∧
    is_processed (mark_processed db i) i = true :=
  ⟨is_processed_mark db i, is_processed_mark db i, is_processed_mark db i⟩

/-- Claim C7, counterexample: the claim says `qry_refs` fails with a
dedicated NotFound error for a key with no expose row. In the code,
`cur.fetchone()` returns `None` and `return row[1:]` raises `TypeError`
(subscripting `None`) — an unhandled crash, not a NotFound error. -/
theorem c7_counterexample :
    qry_refs dbEmpty 1 = .error .typeError ∧
    (PyError.typeError ≠ PyError.notFound) := by
  exact ⟨rfl, by decide⟩

/-- Claim C7 as amended: for every identifier with no row in the `exposes`
table, `qry_refs` neither returns data nor raises a dedicated NotFound
error: it crashes with the `TypeError` from subscripting `None`. -/
theorem c7_missing_row_type_error (db : DB) (i : ℤ)
    (h : db.exposes.find? (fun row => row.id == i) = none) :
    qry_refs db i = .error .typeError := by
  simp [qry_refs, h]

/-- Witness for `c7_missing_row_type_error` at a concrete input. -/
theorem c7_witness :
    (⟨[9], [rowSentinel]⟩ : DB).exposes.find? (fun row => row.id == 3)
        = none ∧
    qry_refs ⟨[9], [rowSentinel]⟩ 3 = .error .typeError :=
  ⟨rfl, c7_missing_row_type_error ⟨[9], [rowSentinel]⟩ 3 rfl⟩

/-- Claim C8, counterexample: the claim says a malformed/missing price or
size never aborts the extraction for that listing or any other. In
Immowelt's `extract_data` a missing price element leaves `price = ""` and
`float("")` raises an uncaught `ValueError`, aborting the whole loop: with
a malformed first card and a well-formed second card, the extraction
returns the error and the second listing's data is lost — no sentinel
values are produced. -/
theorem c8_counterexample :
    immowelt_extract_numeric [⟨none, some 50⟩, ⟨some 1000, some 50⟩]
        = .error .valueError ∧
    immowelt_numeric ⟨some 1000, some 50⟩ = .ok (1000, 50, 20) := by
  constructor
  · rfl
  · simp [immowelt_numeric]
    norm_num [roundHalfEven]

/-- Claim C8 as amended: only eBay's extraction degrades, and only for a
missing size element (`IndexError`/`TypeError` caught): then
`size_float = -1` and `sqm_price = -1` and the listing survives. A size
text that is present but fails `float()` parsing raises an uncaught
`ValueError`, and in Immowelt any listing whose numeric block raises
aborts the whole extraction loop, losing every listing of that page. -/
theorem c8_sentinel_only_for_missing_tag (p : ℚ) (c : ImmoweltCard)
    (e : PyError) (cards : List ImmoweltCard)
    (h : immowelt_numeric c = .error e) :
    ebay_size_sqm p .missing = .ok (-1, -1) ∧
    ebay_size_sqm p (.text none) = .error .valueError ∧
    immowelt_extract_numeric (c :: cards) = .error e := by
  refine ⟨rfl, rfl, ?_⟩
  show List.mapM.loop immowelt_numeric (c :: cards) [] = Except.error e
  rw [List.mapM.loop, h]
  rfl

/-- Witness for `c8_sentinel_only_for_missing_tag` at a concrete input. -/
theorem c8_witness :
    immowelt_numeric ⟨none, some 50⟩ = .error .valueError ∧
    (ebay_size_sqm 1000 .missing = .ok (-1, -1) ∧
     ebay_size_sqm 1000 (.text none) = .error .valueError ∧
     immowelt_extract_numeric [⟨none, some 50⟩, ⟨some 1000, some 50⟩]
        = .error .valueError) :=
  ⟨rfl, c8_sentinel_only_for_missing_tag 1000 ⟨none, some 50⟩ .valueError
    [⟨some 1000, some 50⟩] rfl⟩

/-- Claim C9: for an unprocessed listing with an empty address, the
enrichment block returns the sentinel `(-1, "")` without invoking the
resolver (zero calls on the test double) and the stored ratio is the
failure sentinel `-1.0`. -/
theorem c9_empty_address_sentinel (db : DB) (i : ℤ) (sqm : ℚ)
    (o : ResolverResult) (h : is_processed db i = false) :
    enrichReference db i "" sqm o = .ok ⟨"", -1, -1, 0⟩ := by
  simp [enrichReference, h]

/-- Witness for `c9_empty_address_sentinel` at a concrete input. -/
theorem c9_witness :
    is_processed dbEmpty 3 = false ∧
    enrichReference dbEmpty 3 "" 12 .failure = .ok ⟨"", -1, -1, 0⟩ :=
  ⟨rfl, c9_empty_address_sentinel dbEmpty 3 12 .failure rfl⟩

/-- Claim C10: every completed `save_expose` call writes `created` from
the time of that call, so re-saving an existing `(id, crawler)` key at a
later time `t2` leaves the stored row with `created = t2`; consequently
the row is visible to `get_exposes_since m` for every `m ≤ t2` — recency
reflects the last save, not the first insertion. (The id is processed, so
no sheet export is attempted and both calls complete.) -/
theorem c10_created_overwritten (db : DB) (e e2 : Expose) (t1 t2 m : ℕ)
    (f1 s1 f2 s2 : SinkOutcome) (h : is_processed db e.id = true)
    (hid : e2.id = e.id) (hcr : e2.crawler = e.crawler) (_ht : t1 < t2)
    (hm : m ≤ t2) :
    save_expose db t1 e f1 s1 = .ok ⟨upsertExpose db t1 e, 0, 0⟩ ∧
    save_expose (upsertExpose db t1 e) t2 e2 f2 s2
      = .ok ⟨upsertExpose (upsertExpose db t1 e) t2 e2, 0, 0⟩ ∧
    (upsertExpose (upsertExpose db t1 e) t2 e2).exposes.find?
        (keyMatch e.id e.crawler) = some (rowOf t2 e2) ∧
    rowOf t2 e2 ∈ get_exposes_since
        (upsertExpose (upsertExpose db t1 e) t2 e2) m := by
  have h1 : is_processed (upsertExpose db t1 e) e2.id = true := by
    rw [is_processed_upsert, hid]; exact h
  refine ⟨by simp [save_expose, h], by simp [save_expose, h1], ?_, ?_⟩
  · have := find?_upsert (upsertExpose db t1 e) t2 e2
    rwa [hid, hcr] at this
  · rw [get_exposes_since, mem_sortByCreatedDesc, List.mem_filter]
    constructor
    · exact List.mem_append_right _ (List.mem_singleton.mpr rfl)
    · simpa [rowOf] using hm

/-- Witness for `c10_created_overwritten` at a concrete input. -/
theorem c10_witness :
    is_processed ⟨[1], []⟩ eSample.id = true ∧
    (save_expose ⟨[1], []⟩ 10 eSample .ok .ok
        = .ok ⟨upsertExpose ⟨[1], []⟩ 10 eSample, 0, 0⟩ ∧
     save_expose (upsertExpose ⟨[1], []⟩ 10 eSample) 20 eSample .ok .ok
        = .ok ⟨upsertExpose (upsertExpose ⟨[1], []⟩ 10 eSample) 20 eSample,
               0, 0⟩ ∧
     (upsertExpose (upsertExpose ⟨[1], []⟩ 10 eSample) 20
         eSample).exposes.find? (keyMatch eSample.id eSample.crawler)
        = some (rowOf 20 eSample) ∧
     rowOf 20 eSample ∈ get_exposes_since
        (upsertExpose (upsertExpose ⟨[1], []⟩ 10 eSample) 20 eSample) 15) :=
  ⟨rfl, c10_created_overwritten ⟨[1], []⟩ eSample eSample 10 20 15
    .ok .ok .ok .ok rfl rfl rfl (by decide) (by decide)⟩
